import Mathlib

/-!
Verification of `scripts/init-database.py` (pgedge-docker).

The script bootstraps one node of a multi-node replicated Postgres cluster.
We embed the pure decision logic: the persisted progress store
(`read_init_status`, `update_database_init_status`,
`update_default_db_init_status`), the capability-grant computation
(`get_superuser_roles`), the peer-rendezvous subscription construction
(`init_peer_spock_subscriptions`, `spock_sub_create`), and the three phase
loops of `main` as state-passing functions over the progress file.

External effects (SQL execution, connection attempts, sleeping) are modelled
by their observable parameters: connectivity probes are booleans, SQL emission
is a list of statements or structured actions, and the infinite retry loops of
the script are represented by their success continuations (they either loop
forever or succeed; we model the state reached on success).
-/

namespace InitDatabase

/-- Per-database initialization status, persisted as a string enum
(`DatabaseStatus` in the script). -/
inductive DatabaseStatus
  | created
  | inited
  | subscribed
deriving DecidableEq, Repr

/-- The parsed content of the init-status JSON file (`InitStatus` in the
script): the `default_db_initialized` flag and the per-database status
mapping, kept as an insertion-ordered association list like a JSON object. -/
structure InitStatus where
  default_db_initialized : Bool
  dbs_initialized : List (String × DatabaseStatus)
deriving DecidableEq, Repr

/-- The empty record `{"default_db_initialized": false, "dbs_initialized": {}}`
returned by `read_init_status` when the file is missing, unparseable, or the
force flag is set. -/
def emptyInitStatus : InitStatus := ⟨false, []⟩

/-- The on-disk state of `INIT_STATUS_FILE`: absent, present but not valid
JSON, or present with a parsed record. -/
inductive StatusFile
  | absent
  | corrupt
  | valid (s : InitStatus)
deriving DecidableEq, Repr

/-- `read_init_status`: with `FORCE_INIT` set it returns the empty record
without touching the file; otherwise a missing or unparseable file reads as
the empty record and a valid file reads as its content. -/
def read_init_status (force : Bool) (f : StatusFile) : InitStatus :=
  if force then emptyInitStatus
  else
    match f with
    | .absent => emptyInitStatus
    | .corrupt => emptyInitStatus
    | .valid s => s

/-- Python dict assignment `d[k] = v`: replace the entry if the key is
present, otherwise append it. -/
def setEntry : List (String × DatabaseStatus) → String → DatabaseStatus →
    List (String × DatabaseStatus)
  | [], name, st => [(name, st)]
  | (k, v) :: rest, name, st =>
    if k = name then (k, st) :: rest else (k, v) :: setEntry rest name st

/-- Python dict lookup `d.get(k)`. -/
def lookupEntry : List (String × DatabaseStatus) → String → Option DatabaseStatus
  | [], _ => none
  | (k, v) :: rest, name => if k = name then some v else lookupEntry rest name

/-- `update_database_init_status`: read the record (honouring the force
flag), set the one database's status, and rewrite the whole file with the
result. -/
def update_database_init_status (force : Bool) (f : StatusFile)
    (database_name : String) (status : DatabaseStatus) : StatusFile :=
  let s := read_init_status force f
  .valid { s with dbs_initialized := setEntry s.dbs_initialized database_name status }

/-- `update_default_db_init_status`: read the record (honouring the force
flag), set the flag, and rewrite the whole file with the result. -/
def update_default_db_init_status (force : Bool) (f : StatusFile)
    (initialized : Bool) : StatusFile :=
  let s := read_init_status force f
  .valid { s with default_db_initialized := initialized }

/-- The persisted status of a database as a later non-forced run would read
it back: `none` models "absent". -/
def statusOf (f : StatusFile) (name : String) : Option DatabaseStatus :=
  lookupEntry (read_init_status false f).dbs_initialized name

/-- The ordering absent < created < inited < subscribed of the spec's status
enumeration. -/
def statusRank : Option DatabaseStatus → Nat
  | none => 0
  | some .created => 1
  | some .inited => 2
  | some .subscribed => 3

/-! ## Version-dependent capability grants (`get_superuser_roles`) -/

/-- The fixed superuser-parameter list `SUPERUSER_PARAMETERS`, comma-joined
at module load. -/
def SUPERUSER_PARAMETERS : String :=
  String.intercalate ", "
    ["commit_delay", "deadlock_timeout", "lc_messages", "log_duration",
     "log_error_verbosity", "log_executor_stats", "log_lock_waits",
     "log_min_duration_sample", "log_min_duration_statement",
     "log_min_error_statement", "log_min_messages", "log_parser_stats",
     "log_planner_stats", "log_replication_commands", "log_statement",
     "log_statement_sample_rate", "log_statement_stats", "log_temp_files",
     "log_transaction_sample_rate", "pg_stat_statements.track",
     "pg_stat_statements.track_planning", "pg_stat_statements.track_utility",
     "session_replication_role", "temp_file_limit", "track_activities",
     "track_counts", "track_functions", "track_io_timing"]

/-- `get_superuser_roles`: the role list granted to `pgedge_superuser`,
selected by the `PGV` environment variable (`none` models an unset
variable); any unrecognized value raises `ValueError`, modelled as
`Except.error`. The script joins the list with `", "` before interpolation;
we keep the list and join at the use site. -/
def get_superuser_roles (pg_version : Option String) :
    Except String (List String) :=
  if pg_version = some "15" then
    .ok ["pg_read_all_data", "pg_write_all_data", "pg_read_all_settings",
         "pg_read_all_stats", "pg_stat_scan_tables", "pg_monitor",
         "pg_signal_backend", "pg_checkpoint"]
  else if pg_version = some "16" ∨ pg_version = some "17" then
    .ok ["pg_read_all_data", "pg_write_all_data", "pg_read_all_settings",
         "pg_read_all_stats", "pg_stat_scan_tables", "pg_monitor",
         "pg_signal_backend", "pg_checkpoint",
         "pg_use_reserved_connections", "pg_create_subscription"]
  else
    .error ("unrecognized postgres version: " ++
      (pg_version.getD "None"))

/-- The fields of a user entry that `create_user_statement` reads. -/
structure UserSpec where
  username : String
  password : String
  superuser : Option Bool
  type : String
deriving DecidableEq, Repr

/-- `create_user_statement`: superusers get a SUPERUSER login, admin-class
users get CREATEROLE/CREATEDB plus membership in the privilege bundle, and
everyone else a plain login. -/
def create_user_statement (user : UserSpec) : List String :=
  if user.superuser = some true then
    ["CREATE USER " ++ user.username ++ " WITH LOGIN SUPERUSER PASSWORD '" ++
      user.password ++ "';"]
  else if user.type = "admin" ∨ user.type = "internal_admin" then
    ["CREATE USER " ++ user.username ++
       " WITH LOGIN CREATEROLE CREATEDB PASSWORD '" ++ user.password ++ "';",
     "GRANT pgedge_superuser to " ++ user.username ++ " WITH ADMIN TRUE;"]
  else
    ["CREATE USER " ++ user.username ++ " WITH LOGIN PASSWORD '" ++
      user.password ++ "';"]

/-- The ordered statement batch of `init_default_database` (lines 521-534)
issued on the seed connection. The `get_superuser_roles()` call happens
while the batch is being built; its `ValueError` propagates out of
`init_default_database` and `main` uncaught, killing the process with a
non-zero exit before any statement runs, which `Except.error` models. -/
def bootstrap_statements (pg_version : Option String) (users : List UserSpec)
    (database_name admin_username init_dbname pgedge_pw : String) :
    Except String (List String) :=
  match get_superuser_roles pg_version with
  | .error e => .error e
  | .ok roles =>
    .ok (["CREATE ROLE pgedge_superuser WITH NOLOGIN;",
          "GRANT " ++ String.intercalate ", " roles ++
            " TO pgedge_superuser WITH ADMIN true;",
          "GRANT SET ON PARAMETER " ++ SUPERUSER_PARAMETERS ++
            " TO pgedge_superuser;"] ++
         users.flatMap create_user_statement ++
         ["CREATE DATABASE " ++ database_name ++ " OWNER " ++
            admin_username ++ ";",
          "GRANT ALL PRIVILEGES ON DATABASE " ++ database_name ++ " TO " ++
            admin_username ++ ";",
          "GRANT ALL PRIVILEGES ON DATABASE " ++ init_dbname ++ " TO " ++
            admin_username ++ ";",
          "GRANT ALL PRIVILEGES ON DATABASE " ++ database_name ++
            " TO pgedge;",
          "ALTER USER pgedge WITH PASSWORD '" ++ pgedge_pw ++
            "' LOGIN SUPERUSER REPLICATION;"])

/-! ## Probes and the primary-bootstrap gate (`main`, lines 689-703) -/

/-- `main` computes
`initialized = not can_connect(init_dsn) and can_connect(local_dsn)`. -/
def node_initialized (can_connect_init can_connect_local : Bool) : Bool :=
  !can_connect_init && can_connect_local

/-- `main` calls `init_default_database` exactly when `initialized` is
false. -/
def runs_init_default_database (can_connect_init can_connect_local : Bool) : Bool :=
  !(node_initialized can_connect_init can_connect_local)

/-! ## Cluster topology and connection strings -/

/-- The fields of a node entry that the subscription logic uses. -/
structure NodeSpec where
  id : String
  name : String
  hostname : String
deriving DecidableEq, Repr

/-- The `dsn` helper: space-joined keyword fields, password appended only
when given. -/
def dsn (dbname user : String) (pw : Option String) (host : String)
    (port : Nat) : String :=
  let fields := ["host=" ++ host, "dbname=" ++ dbname, "user=" ++ user,
    "port=" ++ toString port]
  match pw with
  | some p => String.intercalate " " (fields ++ ["password=" ++ p])
  | none => String.intercalate " " fields

/-- The peers of this node: every configured node whose id differs from the
self node's id (`init_peer_spock_subscriptions`, line 608). -/
def peersOf (nodes : List NodeSpec) (node_id : String) : List NodeSpec :=
  nodes.filter (fun n => n.id ≠ node_id)

/-- The deterministic subscription name
`f"sub_{database_name}_{node_name}_{peer_name}"`. -/
def subscription_name (database_name node_name peer_name : String) : String :=
  "sub_" ++ database_name ++ "_" ++ node_name ++ "_" ++ peer_name

/-! ## Subscription actions (`spock_sub_create`, `spock_sub_drop`) -/

/-- A spock subscription call issued against the local admin connection,
with the arguments the script interpolates into the SQL text. -/
inductive SubAction
  | drop (sub_name : String)
  | create (sub_name : String) (provider_dsn : String)
      (replication_sets : List String) (forward_origins : List String)
      (synchronize_structure : Bool) (synchronize_data : Bool)
      (apply_delay : Nat)
deriving DecidableEq, Repr

/-- `spock_sub_create`: the replication-set list, forward origins,
synchronization flags and apply delay are hard-coded in the SQL text. -/
def spock_sub_create (sub_name other_dsn : String) : SubAction :=
  .create sub_name other_dsn ["default", "default_insert_only", "ddl_sql"]
    [] true true 0

/-- `spock_sub_drop`: drop by name with `ifexists := true`. -/
def spock_sub_drop (sub_name : String) : SubAction := .drop sub_name

/-- The per-peer body of the loop in `init_peer_spock_subscriptions`
(lines 614-629): build the peer DSN and subscription name, optionally drop
the existing subscription, then create it. The retry loops around drop and
create run until the statement succeeds, so on the success path exactly
these actions are issued, in this order. -/
def peer_loop (database_name node_name : String) (drop_existing : Bool) :
    List NodeSpec → List SubAction
  | [] => []
  | peer :: rest =>
    let peer_dsn := dsn database_name "pgedge" none peer.hostname 5432
    let sub_name := subscription_name database_name node_name peer.name
    (if drop_existing then [spock_sub_drop sub_name] else []) ++
      [spock_sub_create sub_name peer_dsn] ++
      peer_loop database_name node_name drop_existing rest

/-- The subscription names of the create calls in an action list, in issue
order. -/
def createNames : List SubAction → List String
  | [] => []
  | .create n _ _ _ _ _ _ :: rest => n :: createNames rest
  | .drop _ :: rest => createNames rest

/-- The subscription names of the drop calls in an action list, in issue
order. -/
def dropNames : List SubAction → List String
  | [] => []
  | .drop n :: rest => n :: dropNames rest
  | .create _ _ _ _ _ _ _ :: rest => dropNames rest

/-- `init_peer_spock_subscriptions`: with no peers it logs and returns
`False` without doing any subscription work; otherwise it runs the peer loop
and returns `True`. The boolean is the function's return value, the list the
subscription actions it issues. -/
def init_peer_spock_subscriptions (nodes : List NodeSpec)
    (node_id node_name database_name : String) (drop_existing : Bool) :
    Bool × List SubAction :=
  let peers := peersOf nodes node_id
  if peers = [] then (false, [])
  else (true, peer_loop database_name node_name drop_existing peers)

/-! ## The phase steps of `main` on the progress store -/

/-- The progress-store effect and skip decision of `init_database`
(lines 570-604): skip when any status is already recorded, otherwise do the
existence-checked creation and grants and persist `created`. The boolean
records whether the creation phase body ran. -/
def init_database_step (force : Bool) (f : StatusFile) (name : String) :
    StatusFile × Bool :=
  match lookupEntry (read_init_status force f).dbs_initialized name with
  | some _ => (f, false)
  | none => (update_database_init_status force f name .created, true)

/-- One iteration of the spock-node loop of `main` (lines 712-725): exit
non-zero when the database has no progress record, run
`init_spock_node` and persist `inited` when the record is `created`, and
skip otherwise. The boolean records whether `init_spock_node` ran. -/
def spock_node_step (force : Bool) (f : StatusFile) (name : String) :
    Except Unit (StatusFile × Bool) :=
  match lookupEntry (read_init_status force f).dbs_initialized name with
  | none => .error ()
  | some .created => .ok (update_database_init_status force f name .inited, true)
  | some _ => .ok (f, false)

/-- One iteration of the peer-subscription loop of `main` (lines 728-740):
skip databases already `subscribed`; otherwise call
`init_peer_spock_subscriptions` (with `drop_existing = True`) and persist
`subscribed` only when it returned `True`. The boolean records whether the
rendezvous protocol was invoked. -/
def peer_sub_step (nodes : List NodeSpec) (node_id node_name : String)
    (force : Bool) (f : StatusFile) (name : String) : StatusFile × Bool :=
  match lookupEntry (read_init_status force f).dbs_initialized name with
  | some .subscribed => (f, false)
  | _ =>
    let subscribed := (init_peer_spock_subscriptions nodes node_id node_name name true).1
    (if subscribed then update_database_init_status force f name .subscribed else f,
      true)

/-- The creation loop of `main` (lines 707-708) over the configured
additional databases, collecting the databases whose creation body ran. -/
def creation_loop (force : Bool) : List String → StatusFile →
    StatusFile × List String
  | [], f => (f, [])
  | name :: rest, f =>
    let p := init_database_step force f name
    let q := creation_loop force rest p.1
    (q.1, if p.2 then name :: q.2 else q.2)

/-- The spock-node loop of `main` (lines 712-725); `Except.error ()` models
`sys.exit(1)`. -/
def spock_loop (force : Bool) : List String → StatusFile →
    Except Unit (StatusFile × List String)
  | [], f => .ok (f, [])
  | name :: rest, f =>
    match spock_node_step force f name with
    | .error () => .error ()
    | .ok p =>
      match spock_loop force rest p.1 with
      | .error () => .error ()
      | .ok q => .ok (q.1, if p.2 then name :: q.2 else q.2)

/-- The peer-subscription loop of `main` (lines 728-740). -/
def sub_loop (nodes : List NodeSpec) (node_id node_name : String)
    (force : Bool) : List String → StatusFile → StatusFile × List String
  | [], f => (f, [])
  | name :: rest, f =>
    let p := peer_sub_step nodes node_id node_name force f name
    let q := sub_loop nodes node_id node_name force rest p.1
    (q.1, if p.2 then name :: q.2 else q.2)

/-- The outcome of one run of the additional-database portion of `main`:
the final progress file and, per phase, the databases for which the phase
body actually ran. -/
structure RunResult where
  file : StatusFile
  createdDbs : List String
  spockDbs : List String
  subDbs : List String
deriving DecidableEq, Repr

/-- The three sequential phase loops of `main` (lines 705-740) over the
additional databases; `Except.error ()` models the `sys.exit(1)` taken when
a database has no progress record in the spock loop. -/
def main_run (nodes : List NodeSpec) (node_id node_name : String)
    (force : Bool) (dbs : List String) (f : StatusFile) :
    Except Unit RunResult :=
  let c := creation_loop force dbs f
  match spock_loop force dbs c.1 with
  | .error () => .error ()
  | .ok s =>
    let p := sub_loop nodes node_id node_name force dbs s.1
    .ok ⟨p.1, c.2, s.2, p.2⟩

/-- The `default_db_initialized` flag as a later non-forced run would read
it back. -/
def flagOf (f : StatusFile) : Bool :=
  (read_init_status false f).default_db_initialized

/-! ## Association-list lemmas -/

theorem lookupEntry_setEntry_self (l : List (String × DatabaseStatus))
    (name : String) (st : DatabaseStatus) :
    lookupEntry (setEntry l name st) name = some st := by
  induction l with
  | nil => simp [setEntry, lookupEntry]
  | cons kv rest ih =>
    obtain ⟨k, v⟩ := kv
    by_cases h : k = name
    · simp [setEntry, lookupEntry, h]
    · simp [setEntry, lookupEntry, h, ih]

theorem lookupEntry_setEntry_other (l : List (String × DatabaseStatus))
    (name d : String) (st : DatabaseStatus) (h : d ≠ name) :
    lookupEntry (setEntry l name st) d = lookupEntry l d := by
  induction l with
  | nil =>
    have hnd : name ≠ d := fun hc => h hc.symm
    simp [setEntry, lookupEntry, hnd]
  | cons kv rest ih =>
    obtain ⟨k, v⟩ := kv
    by_cases hk : k = name
    · subst hk
      have hkd : k ≠ d := fun hc => h hc.symm
      simp [setEntry, lookupEntry, hkd]
    · simp [setEntry, lookupEntry, hk, ih]

theorem statusOf_update (f : StatusFile) (name : String)
    (st : DatabaseStatus) (d : String) :
    statusOf (update_database_init_status false f name st) d =
      if d = name then some st else statusOf f d := by
  by_cases h : d = name
  · subst h
    simp [statusOf, update_database_init_status, read_init_status,
      lookupEntry_setEntry_self]
  · simp [statusOf, update_database_init_status, read_init_status,
      lookupEntry_setEntry_other _ _ _ _ h, h]

theorem flagOf_update (f : StatusFile) (name : String) (st : DatabaseStatus) :
    flagOf (update_database_init_status false f name st) = flagOf f := by
  simp [flagOf, update_database_init_status, read_init_status]

theorem statusRank_le_three (o : Option DatabaseStatus) : statusRank o ≤ 3 := by
  cases o with
  | none => simp [statusRank]
  | some s => cases s <;> simp [statusRank]

/-! ## Step and loop monotonicity -/

theorem init_database_step_mono (f : StatusFile) (name d : String) :
    statusRank (statusOf f d) ≤
      statusRank (statusOf (init_database_step false f name).1 d) := by
  unfold init_database_step
  cases h : lookupEntry (read_init_status false f).dbs_initialized name with
  | some s => simp
  | none =>
    simp only
    rw [statusOf_update]
    by_cases hd : d = name
    · subst hd
      have hs : statusOf f d = none := h
      simp [hs, statusRank]
    · simp [hd]

theorem spock_node_step_mono (f : StatusFile) (name : String)
    (p : StatusFile × Bool) (hp : spock_node_step false f name = .ok p)
    (d : String) :
    statusRank (statusOf f d) ≤ statusRank (statusOf p.1 d) := by
  unfold spock_node_step at hp
  cases h : lookupEntry (read_init_status false f).dbs_initialized name with
  | none => rw [h] at hp; exact absurd hp (by simp)
  | some s =>
    rw [h] at hp
    cases s with
    | created =>
      simp only at hp
      cases hp
      rw [statusOf_update]
      by_cases hd : d = name
      · subst hd
        have hs : statusOf f d = some .created := h
        simp [hs, statusRank]
      · simp [hd]
    | inited => simp only at hp; cases hp; simp
    | subscribed => simp only at hp; cases hp; simp

theorem peer_sub_step_mono (nodes : List NodeSpec)
    (node_id node_name : String) (f : StatusFile) (name d : String) :
    statusRank (statusOf f d) ≤
      statusRank (statusOf (peer_sub_step nodes node_id node_name false f name).1 d) := by
  unfold peer_sub_step
  cases h : lookupEntry (read_init_status false f).dbs_initialized name with
  | some s =>
    cases s with
    | subscribed => simp
    | created =>
      simp only
      cases (init_peer_spock_subscriptions nodes node_id node_name name true).1
      · simp
      · simp only [if_true]
        rw [statusOf_update]
        by_cases hd : d = name
        · subst hd
          simp only [statusRank]
          exact statusRank_le_three _
        · simp [hd]
    | inited =>
      simp only
      cases (init_peer_spock_subscriptions nodes node_id node_name name true).1
      · simp
      · simp only [if_true]
        rw [statusOf_update]
        by_cases hd : d = name
        · subst hd
          simp only [statusRank]
          exact statusRank_le_three _
        · simp [hd]
  | none =>
    simp only
    cases (init_peer_spock_subscriptions nodes node_id node_name name true).1
    · simp
    · simp only [if_true]
      rw [statusOf_update]
      by_cases hd : d = name
      · subst hd
        simp only [statusRank]
        exact statusRank_le_three _
      · simp [hd]

theorem creation_loop_mono (dbs : List String) (f : StatusFile) (d : String) :
    statusRank (statusOf f d) ≤
      statusRank (statusOf (creation_loop false dbs f).1 d) := by
  induction dbs generalizing f with
  | nil => simp [creation_loop]
  | cons name rest ih =>
    calc statusRank (statusOf f d)
        ≤ statusRank (statusOf (init_database_step false f name).1 d) :=
          init_database_step_mono f name d
      _ ≤ _ := by
          simpa [creation_loop] using ih (init_database_step false f name).1

theorem spock_loop_mono (dbs : List String) (f : StatusFile)
    (q : StatusFile × List String) (hq : spock_loop false dbs f = .ok q)
    (d : String) :
    statusRank (statusOf f d) ≤ statusRank (statusOf q.1 d) := by
  induction dbs generalizing f q with
  | nil =>
    simp only [spock_loop] at hq
    cases hq
    simp
  | cons name rest ih =>
    simp only [spock_loop] at hq
    split at hq
    · exact absurd hq (by simp)
    next p hp =>
      split at hq
      · exact absurd hq (by simp)
      next r hr =>
        cases hq
        calc statusRank (statusOf f d)
            ≤ statusRank (statusOf p.1 d) := spock_node_step_mono f name p hp d
          _ ≤ statusRank (statusOf r.1 d) := ih p.1 r hr

theorem sub_loop_mono (nodes : List NodeSpec) (node_id node_name : String)
    (dbs : List String) (f : StatusFile) (d : String) :
    statusRank (statusOf f d) ≤
      statusRank (statusOf (sub_loop nodes node_id node_name false dbs f).1 d) := by
  induction dbs generalizing f with
  | nil => simp [sub_loop]
  | cons name rest ih =>
    calc statusRank (statusOf f d)
        ≤ statusRank (statusOf (peer_sub_step nodes node_id node_name false f name).1 d) :=
          peer_sub_step_mono nodes node_id node_name f name d
      _ ≤ _ := by
          simpa [sub_loop] using
            ih (peer_sub_step nodes node_id node_name false f name).1

theorem main_run_mono (nodes : List NodeSpec) (node_id node_name : String)
    (dbs : List String) (f : StatusFile) (r : RunResult)
    (hr : main_run nodes node_id node_name false dbs f = .ok r) (d : String) :
    statusRank (statusOf f d) ≤ statusRank (statusOf r.file d) := by
  unfold main_run at hr
  dsimp only at hr
  split at hr
  · exact absurd hr (by simp)
  next s hs =>
    cases hr
    calc statusRank (statusOf f d)
        ≤ statusRank (statusOf (creation_loop false dbs f).1 d) :=
          creation_loop_mono dbs f d
      _ ≤ statusRank (statusOf s.1 d) :=
          spock_loop_mono dbs (creation_loop false dbs f).1 s hs d
      _ ≤ _ := sub_loop_mono nodes node_id node_name dbs s.1 d

/-! ## Peer-loop structure lemmas -/

theorem dropNames_peer_loop (db nn : String) (peers : List NodeSpec) :
    dropNames (peer_loop db nn true peers) =
      peers.map (fun p => subscription_name db nn p.name) := by
  induction peers with
  | nil => rfl
  | cons p rest ih =>
    simp [peer_loop, spock_sub_drop, spock_sub_create, dropNames, ih]

theorem createNames_peer_loop (db nn : String) (peers : List NodeSpec) :
    createNames (peer_loop db nn true peers) =
      peers.map (fun p => subscription_name db nn p.name) := by
  induction peers with
  | nil => rfl
  | cons p rest ih =>
    simp [peer_loop, spock_sub_drop, spock_sub_create, createNames, ih]

theorem peer_loop_create_params (db nn : String) (de : Bool)
    (peers : List NodeSpec) (act : SubAction)
    (h : act ∈ peer_loop db nn de peers) :
    ∀ sub_name pd rs fo ss sd ad,
      act = SubAction.create sub_name pd rs fo ss sd ad →
      rs = ["default", "default_insert_only", "ddl_sql"] ∧ fo = [] ∧
        ss = true ∧ sd = true ∧ ad = 0 := by
  induction peers with
  | nil => simp [peer_loop] at h
  | cons p rest ih =>
    intro sub_name pd rs fo ss sd ad hact
    subst hact
    simp only [peer_loop, List.mem_append, List.mem_singleton] at h
    rcases h with (h | h) | h
    · cases de with
      | false => simp at h
      | true =>
        simp [spock_sub_drop] at h
    · rw [spock_sub_create] at h
      cases h
      exact ⟨rfl, rfl, rfl, rfl, rfl⟩
    · exact ih h _ _ _ _ _ _ _ rfl

/-! ## Claim theorems -/

/-- C1 counterexample: the claim says the one-time bootstrap runs **iff**
the seed connection is reachable and the admin connection is not; but with
both probes reachable (seed database still present, primary database
already created) the script computes `initialized = (not True) and True =
False` and runs `init_default_database` anyway, while the claimed predicate
says it must be skipped. -/
theorem C1_counterexample :
    runs_init_default_database true true ≠ (true && !true) := by decide

/-- C1 (amended): `main` invokes the one-time primary bootstrap
(`init_default_database`) iff the seed connection is reachable OR the
admin-scoped connection to the primary database is not reachable; it is
skipped exactly when the seed is unreachable AND the admin connection is
reachable. -/
theorem C1_bootstrap_gate :
    ∀ can_connect_init can_connect_local : Bool,
      runs_init_default_database can_connect_init can_connect_local =
        (can_connect_init || !can_connect_local) := by decide

/-- C2: with the force flag unset, every progress-store write performed by
the phase loops of `main` records a status at least as high as the one
already persisted: the creation step, the spock-node step and the
peer-subscription step are each pointwise non-decreasing in the
absent < created < inited < subscribed order, and hence so is a whole run
over the additional databases. -/
theorem C2_status_forward_only :
    (∀ (f : StatusFile) (name d : String),
      statusRank (statusOf f d) ≤
        statusRank (statusOf (init_database_step false f name).1 d)) ∧
    (∀ (f : StatusFile) (name : String) (p : StatusFile × Bool) (d : String),
      spock_node_step false f name = Except.ok p →
      statusRank (statusOf f d) ≤ statusRank (statusOf p.1 d)) ∧
    (∀ (nodes : List NodeSpec) (node_id node_name : String) (f : StatusFile)
        (name d : String),
      statusRank (statusOf f d) ≤
        statusRank (statusOf (peer_sub_step nodes node_id node_name false f name).1 d)) ∧
    (∀ (nodes : List NodeSpec) (node_id node_name : String)
        (dbs : List String) (f : StatusFile) (r : RunResult) (d : String),
      main_run nodes node_id node_name false dbs f = Except.ok r →
      statusRank (statusOf f d) ≤ statusRank (statusOf r.file d)) :=
  ⟨fun f name d => init_database_step_mono f name d,
   fun f name p d hp => spock_node_step_mono f name p hp d,
   fun nodes ni nn f name d => peer_sub_step_mono nodes ni nn f name d,
   fun nodes ni nn dbs f r d hr => main_run_mono nodes ni nn dbs f r hr d⟩

/-- Witness for C2 at a concrete run: one database starting from an empty
valid progress file reaches `subscribed`, and a spock-node step from
`created` moves to `inited`. -/
theorem C2_status_forward_only_witness :
    statusRank (statusOf (StatusFile.valid ⟨false, []⟩) "db1") ≤
      statusRank (statusOf
        (RunResult.mk
          (StatusFile.valid ⟨false, [("db1", DatabaseStatus.subscribed)]⟩)
          ["db1"] ["db1"] ["db1"]).file "db1") ∧
    statusRank (statusOf
        (StatusFile.valid ⟨false, [("db1", DatabaseStatus.created)]⟩) "db1") ≤
      statusRank (statusOf
        (update_database_init_status false
          (StatusFile.valid ⟨false, [("db1", DatabaseStatus.created)]⟩)
          "db1" DatabaseStatus.inited, true).1 "db1") :=
  ⟨C2_status_forward_only.2.2.2
      [⟨"1", "n1", "h1"⟩, ⟨"2", "n2", "h2"⟩] "1" "n1" ["db1"]
      (StatusFile.valid ⟨false, []⟩)
      (RunResult.mk
        (StatusFile.valid ⟨false, [("db1", DatabaseStatus.subscribed)]⟩)
        ["db1"] ["db1"] ["db1"]) "db1" (by rfl),
   C2_status_forward_only.2.1
      (StatusFile.valid ⟨false, [("db1", DatabaseStatus.created)]⟩) "db1"
      (update_database_init_status false
        (StatusFile.valid ⟨false, [("db1", DatabaseStatus.created)]⟩)
        "db1" DatabaseStatus.inited, true) "db1" (by rfl)⟩

/-- C3 counterexample: with database `db1` persisted at `created` and one
peer configured, the next run skips creation and runs the spock-node phase,
but then its peer-subscription loop also invokes the rendezvous protocol
for `db1` in the same run (`subDbs = ["db1"]`), contradicting the claim
that the run performs the §4.4 phase only. -/
theorem C3_counterexample :
    (main_run [⟨"1", "n1", "h1"⟩, ⟨"2", "n2", "h2"⟩] "1" "n1" false ["db1"]
        (StatusFile.valid ⟨false, [("db1", DatabaseStatus.created)]⟩)).map
      (fun r => (r.createdDbs, r.spockDbs, r.subDbs)) =
      Except.ok ([], ["db1"], ["db1"]) := by rfl

/-- C3 (amended): if a run starts with database D persisted at `created`,
it does not repeat the creation phase for D and performs the spock-node
initialization phase for D; having then advanced D to `inited`, the same
run also invokes the peer-rendezvous phase for D rather than leaving it to
a later run. -/
theorem C3_resume_from_created :
    ∀ (nodes : List NodeSpec) (node_id node_name : String) (s : InitStatus)
      (D : String),
      lookupEntry s.dbs_initialized D = some DatabaseStatus.created →
      (main_run nodes node_id node_name false [D] (StatusFile.valid s)).map
        (fun r => (r.createdDbs, r.spockDbs, r.subDbs)) =
        Except.ok ([], [D], [D]) := by
  intro nodes node_id node_name s D h
  have hread : read_init_status false (StatusFile.valid s) = s := rfl
  have hc : creation_loop false [D] (StatusFile.valid s) =
      (StatusFile.valid s, []) := by
    simp [creation_loop, init_database_step, hread, h]
  have hsn : spock_node_step false (StatusFile.valid s) D =
      .ok (update_database_init_status false (StatusFile.valid s) D
        DatabaseStatus.inited, true) := by
    simp [spock_node_step, hread, h]
  have hsl : spock_loop false [D] (StatusFile.valid s) =
      .ok (update_database_init_status false (StatusFile.valid s) D
        DatabaseStatus.inited, [D]) := by
    simp [spock_loop, hsn]
  have hl2 : lookupEntry (read_init_status false
      (update_database_init_status false (StatusFile.valid s) D
        DatabaseStatus.inited)).dbs_initialized D =
      some DatabaseStatus.inited := by
    simp [update_database_init_status, read_init_status,
      lookupEntry_setEntry_self]
  have hps : (peer_sub_step nodes node_id node_name false
      (update_database_init_status false (StatusFile.valid s) D
        DatabaseStatus.inited) D).2 = true := by
    simp [peer_sub_step, hl2]
  have hsub : (sub_loop nodes node_id node_name false [D]
      (update_database_init_status false (StatusFile.valid s) D
        DatabaseStatus.inited)).2 = [D] := by
    simp [sub_loop, hps]
  simp [main_run, hc, hsl, hsub, Except.map]

/-- Witness for C3 (amended) at a concrete input: database `maindb` at
`created` with peer `n3`. -/
theorem C3_resume_from_created_witness :
    (main_run [⟨"1", "n1", "h1"⟩, ⟨"3", "n3", "h3"⟩] "1" "n1" false ["maindb"]
        (StatusFile.valid ⟨true, [("maindb", DatabaseStatus.created)]⟩)).map
      (fun r => (r.createdDbs, r.spockDbs, r.subDbs)) =
      Except.ok ([], ["maindb"], ["maindb"]) :=
  C3_resume_from_created [⟨"1", "n1", "h1"⟩, ⟨"3", "n3", "h3"⟩] "1" "n1"
    ⟨true, [("maindb", DatabaseStatus.created)]⟩ "maindb" (by rfl)

/-- C4: for a database whose peer list is empty,
`init_peer_spock_subscriptions` returns `False` with no subscription
actions, and the subscription step of `main` leaves the progress file
untouched; a database persisted at `inited` stays at `inited`. -/
theorem C4_zero_peers_no_op :
    ∀ (nodes : List NodeSpec) (node_id node_name db : String)
      (drop_existing : Bool) (f : StatusFile),
      peersOf nodes node_id = [] →
      init_peer_spock_subscriptions nodes node_id node_name db drop_existing =
        (false, []) ∧
      (peer_sub_step nodes node_id node_name false f db).1 = f ∧
      (statusOf f db = some DatabaseStatus.inited →
        statusOf (peer_sub_step nodes node_id node_name false f db).1 db =
          some DatabaseStatus.inited) := by
  intro nodes node_id node_name db de f hp
  have h1 : init_peer_spock_subscriptions nodes node_id node_name db de =
      (false, []) := by
    simp [init_peer_spock_subscriptions, hp]
  have h1t : init_peer_spock_subscriptions nodes node_id node_name db true =
      (false, []) := by
    simp [init_peer_spock_subscriptions, hp]
  have h2 : (peer_sub_step nodes node_id node_name false f db).1 = f := by
    unfold peer_sub_step
    cases hl : lookupEntry (read_init_status false f).dbs_initialized db with
    | some st => cases st <;> simp [h1t]
    | none => simp [h1t]
  exact ⟨h1, h2, fun hi => by rw [h2]; exact hi⟩

/-- Witness for C4: a one-node cluster where the only node is self. -/
theorem C4_zero_peers_no_op_witness :
    init_peer_spock_subscriptions [⟨"1", "n1", "h1"⟩] "1" "n1" "db1" true =
      (false, []) ∧
    (peer_sub_step [⟨"1", "n1", "h1"⟩] "1" "n1" false
        (StatusFile.valid ⟨false, [("db1", DatabaseStatus.inited)]⟩) "db1").1 =
      StatusFile.valid ⟨false, [("db1", DatabaseStatus.inited)]⟩ ∧
    statusOf (peer_sub_step [⟨"1", "n1", "h1"⟩] "1" "n1" false
        (StatusFile.valid ⟨false, [("db1", DatabaseStatus.inited)]⟩) "db1").1
        "db1" =
      some DatabaseStatus.inited :=
  have h := C4_zero_peers_no_op [⟨"1", "n1", "h1"⟩] "1" "n1" "db1" true
    (StatusFile.valid ⟨false, [("db1", DatabaseStatus.inited)]⟩) (by rfl)
  ⟨h.1, h.2.1, h.2.2 (by rfl)⟩

/-- C5 counterexample: with `FORCE_INIT` set, writing status `created` for
`db1` over a file that records `PrimaryInitialized = true` and
`other ↦ inited` rewrites the file from the forced-empty record: the other
database's status is erased (reads back absent) and the flag is reset to
false, contradicting the claim that the run's writes leave them intact. -/
theorem C5_counterexample :
    statusOf (StatusFile.valid ⟨true, [("other", DatabaseStatus.inited)]⟩)
        "other" = some DatabaseStatus.inited ∧
    statusOf (update_database_init_status true
        (StatusFile.valid ⟨true, [("other", DatabaseStatus.inited)]⟩)
        "db1" DatabaseStatus.created) "other" = none ∧
    flagOf (update_database_init_status true
        (StatusFile.valid ⟨true, [("other", DatabaseStatus.inited)]⟩)
        "db1" DatabaseStatus.created) = false := ⟨rfl, rfl, rfl⟩

/-- C5 (amended): with `FORCE_INIT` set, every read of the progress store
returns the empty record and reading by itself does not modify the file;
but any status write performed during the forced run rebuilds the file from
the empty record, so the first such write erases the statuses previously
recorded for other databases and resets the `PrimaryInitialized` flag. -/
theorem C5_force_treats_store_as_empty :
    ∀ (f : StatusFile) (name : String) (st : DatabaseStatus) (b : Bool),
      read_init_status true f = emptyInitStatus ∧
      update_database_init_status true f name st =
        StatusFile.valid ⟨false, [(name, st)]⟩ ∧
      update_default_db_init_status true f b = StatusFile.valid ⟨b, []⟩ :=
  fun _ _ _ _ => ⟨rfl, rfl, rfl⟩

/-- C6: the capability set granted to `pgedge_superuser` is a pure function
of the `PGV` selector: version 15 yields a fixed eight-role set that
contains neither `pg_create_subscription` nor reserved-connection use;
versions 16 and 17 yield exactly that set plus
`pg_use_reserved_connections` and `pg_create_subscription`; any other value
raises the unrecognized-version error, which also aborts construction of
the bootstrap statement batch (the uncaught `ValueError` then terminates
the process with a non-zero exit; no retry loop surrounds it). -/
theorem C6_superuser_roles_versioned :
    get_superuser_roles (some "15") =
      Except.ok ["pg_read_all_data", "pg_write_all_data",
        "pg_read_all_settings", "pg_read_all_stats", "pg_stat_scan_tables",
        "pg_monitor", "pg_signal_backend", "pg_checkpoint"] ∧
    (∀ roles, get_superuser_roles (some "15") = Except.ok roles →
      roles.length = 8 ∧
      "pg_create_subscription" ∉ roles ∧
      "pg_use_reserved_connections" ∉ roles ∧
      get_superuser_roles (some "16") =
        Except.ok (roles ++
          ["pg_use_reserved_connections", "pg_create_subscription"]) ∧
      get_superuser_roles (some "17") =
        Except.ok (roles ++
          ["pg_use_reserved_connections", "pg_create_subscription"])) ∧
    (∀ pg_version : Option String,
      pg_version ≠ some "15" → pg_version ≠ some "16" →
      pg_version ≠ some "17" →
      get_superuser_roles pg_version =
        Except.error ("unrecognized postgres version: " ++
          pg_version.getD "None") ∧
      ∀ users db admin initdb pw,
        bootstrap_statements pg_version users db admin initdb pw =
          Except.error ("unrecognized postgres version: " ++
            pg_version.getD "None")) := by
  refine ⟨rfl, ?_, ?_⟩
  · intro roles hr
    rw [show get_superuser_roles (some "15") =
        Except.ok ["pg_read_all_data", "pg_write_all_data",
          "pg_read_all_settings", "pg_read_all_stats", "pg_stat_scan_tables",
          "pg_monitor", "pg_signal_backend", "pg_checkpoint"] from rfl] at hr
    cases hr
    refine ⟨rfl, by decide, by decide, rfl, rfl⟩
  · intro pv h15 h16 h17
    have herr : get_superuser_roles pv =
        Except.error ("unrecognized postgres version: " ++ pv.getD "None") := by
      unfold get_superuser_roles
      rw [if_neg h15, if_neg ?_]
      rintro (h | h) <;> [exact h16 h; exact h17 h]
    exact ⟨herr, fun users db admin initdb pw => by
      simp [bootstrap_statements, herr]⟩

/-- Witness for C6 at concrete versions: the v15 role list, the v16/v17
extension, and the error for `PGV=14` and for an unset `PGV`. -/
theorem C6_superuser_roles_versioned_witness :
    (8 = 8 ∧
      "pg_create_subscription" ∉
        ["pg_read_all_data", "pg_write_all_data", "pg_read_all_settings",
         "pg_read_all_stats", "pg_stat_scan_tables", "pg_monitor",
         "pg_signal_backend", "pg_checkpoint"] ∧
      "pg_use_reserved_connections" ∉
        ["pg_read_all_data", "pg_write_all_data", "pg_read_all_settings",
         "pg_read_all_stats", "pg_stat_scan_tables", "pg_monitor",
         "pg_signal_backend", "pg_checkpoint"] ∧
      get_superuser_roles (some "16") =
        Except.ok (["pg_read_all_data", "pg_write_all_data",
          "pg_read_all_settings", "pg_read_all_stats", "pg_stat_scan_tables",
          "pg_monitor", "pg_signal_backend", "pg_checkpoint"] ++
          ["pg_use_reserved_connections", "pg_create_subscription"]) ∧
      get_superuser_roles (some "17") =
        Except.ok (["pg_read_all_data", "pg_write_all_data",
          "pg_read_all_settings", "pg_read_all_stats", "pg_stat_scan_tables",
          "pg_monitor", "pg_signal_backend", "pg_checkpoint"] ++
          ["pg_use_reserved_connections", "pg_create_subscription"])) ∧
    (get_superuser_roles (some "14") =
        Except.error "unrecognized postgres version: 14" ∧
      bootstrap_statements (some "14") [] "db" "admin" "init" "pw" =
        Except.error "unrecognized postgres version: 14") ∧
    get_superuser_roles none =
      Except.error "unrecognized postgres version: None" := by
  have h14 := C6_superuser_roles_versioned.2.2 (some "14")
    (by decide) (by decide) (by decide)
  have hn := C6_superuser_roles_versioned.2.2 none
    (by decide) (by decide) (by decide)
  have h15 := C6_superuser_roles_versioned.2.1
    ["pg_read_all_data", "pg_write_all_data", "pg_read_all_settings",
     "pg_read_all_stats", "pg_stat_scan_tables", "pg_monitor",
     "pg_signal_backend", "pg_checkpoint"]
    C6_superuser_roles_versioned.1
  exact ⟨⟨h15.1 ▸ rfl, h15.2.1, h15.2.2.1, h15.2.2.2.1, h15.2.2.2.2⟩,
    ⟨h14.1, h14.2 [] "db" "admin" "init" "pw"⟩, hn.1⟩

/-- C7: in the spock-node loop of `main`, inspecting a database with no
persisted progress record exits the process with a non-zero code
(`sys.exit(1)`, modelled by `Except.error ()`): the step errors exactly
when the record is absent, and the loop reaching such a database errors
instead of continuing. -/
theorem C7_missing_record_exits :
    ∀ (f : StatusFile) (name : String) (rest : List String),
      (spock_node_step false f name = Except.error () ↔
        statusOf f name = none) ∧
      (statusOf f name = none →
        spock_loop false (name :: rest) f = Except.error ()) := by
  intro f name rest
  constructor
  · unfold spock_node_step
    cases h : lookupEntry (read_init_status false f).dbs_initialized name with
    | none =>
      have hs : statusOf f name = none := h
      simp [hs]
    | some st =>
      have hs : statusOf f name = some st := h
      cases st <;> simp [hs]
  · intro h
    have hstep : spock_node_step false f name = Except.error () := by
      unfold spock_node_step
      have h' : lookupEntry (read_init_status false f).dbs_initialized name =
          none := h
      rw [h']
    simp [spock_loop, hstep]

/-- Witness for C7: a valid but empty progress file makes the loop exit on
its first database. -/
theorem C7_missing_record_exits_witness :
    spock_loop false ["db1"] (StatusFile.valid emptyInitStatus) =
      Except.error () :=
  (C7_missing_record_exits (StatusFile.valid emptyInitStatus) "db1" []).2 rfl

/-- C8: `read_init_status` without the force flag returns the empty record
both when the file exists with unparseable content (the
`JSONDecodeError` handler) and when the file is absent; neither case raises
or terminates. -/
theorem C8_unparseable_reads_empty :
    read_init_status false StatusFile.corrupt = emptyInitStatus ∧
    read_init_status false StatusFile.absent = emptyInitStatus := ⟨rfl, rfl⟩

/-- C9: every subscription created by the peer loop carries exactly the
replication sets `default, default_insert_only, ddl_sql`, empty forward
origins, structure and data synchronization enabled, and zero apply delay;
and with `drop_existing` set the drop names and the create names are both
exactly the deterministic `sub_<db>_<self>_<peer>` sequence over the peer
list, so each peer's drop and subsequent create refer to the same name. -/
theorem C9_subscription_shape :
    ∀ (nodes : List NodeSpec) (node_id node_name db : String),
      (∀ act ∈ (init_peer_spock_subscriptions nodes node_id node_name db
          true).2,
        ∀ sub_name pd rs fo ss sd ad,
          act = SubAction.create sub_name pd rs fo ss sd ad →
          rs = ["default", "default_insert_only", "ddl_sql"] ∧ fo = [] ∧
            ss = true ∧ sd = true ∧ ad = 0) ∧
      dropNames (init_peer_spock_subscriptions nodes node_id node_name db
          true).2 =
        (peersOf nodes node_id).map
          (fun p => subscription_name db node_name p.name) ∧
      createNames (init_peer_spock_subscriptions nodes node_id node_name db
          true).2 =
        (peersOf nodes node_id).map
          (fun p => subscription_name db node_name p.name) := by
  intro nodes node_id node_name db
  unfold init_peer_spock_subscriptions
  by_cases hp : peersOf nodes node_id = []
  · simp [hp, dropNames, createNames]
  · simp only [hp, if_neg, if_false]
    refine ⟨?_, ?_, ?_⟩
    · intro act hact
      exact peer_loop_create_params db node_name true
        (peersOf nodes node_id) act hact
    · exact dropNames_peer_loop db node_name (peersOf nodes node_id)
    · exact createNames_peer_loop db node_name (peersOf nodes node_id)

/-- Witness for C9: the create action for peer `n2` carries the fixed
parameter set, applied through the claim theorem at a two-node cluster. -/
theorem C9_subscription_shape_witness :
    (["default", "default_insert_only", "ddl_sql"] : List String) =
        ["default", "default_insert_only", "ddl_sql"] ∧
      ([] : List String) = [] ∧ true = true ∧ true = true ∧ (0 : Nat) = 0 :=
  (C9_subscription_shape [⟨"1", "n1", "h1"⟩, ⟨"2", "n2", "h2"⟩] "1" "n1"
      "db1").1
    (spock_sub_create (subscription_name "db1" "n1" "n2")
      (dsn "db1" "pgedge" none "h2" 5432))
    (by decide)
    (subscription_name "db1" "n1" "n2") (dsn "db1" "pgedge" none "h2" 5432)
    ["default", "default_insert_only", "ddl_sql"] [] true true 0 rfl

/-- C10: with the force flag unset, `update_database_init_status` for D
sets D's status and leaves the `PrimaryInitialized` flag and every other
database's readable status unchanged, and `update_default_db_init_status`
sets only the flag, leaving every database's status unchanged. -/
theorem C10_single_entry_updates_frame :
    ∀ (f : StatusFile) (name : String) (st : DatabaseStatus) (d : String)
      (b : Bool),
      statusOf (update_database_init_status false f name st) name = some st ∧
      (d ≠ name →
        statusOf (update_database_init_status false f name st) d =
          statusOf f d) ∧
      flagOf (update_database_init_status false f name st) = flagOf f ∧
      statusOf (update_default_db_init_status false f b) d = statusOf f d ∧
      flagOf (update_default_db_init_status false f b) = b := by
  intro f name st d b
  refine ⟨?_, ?_, flagOf_update f name st, ?_, ?_⟩
  · rw [statusOf_update]; simp
  · intro h; rw [statusOf_update]; simp [h]
  · simp [statusOf, update_default_db_init_status, read_init_status]
  · simp [flagOf, update_default_db_init_status, read_init_status]

/-- Witness for C10: updating `db1` over a file that also records `other`
leaves `other` and the flag as they were. -/
theorem C10_single_entry_updates_frame_witness :
    statusOf (update_database_init_status false
        (StatusFile.valid ⟨true, [("other", DatabaseStatus.inited)]⟩)
        "db1" DatabaseStatus.created) "other" =
      statusOf (StatusFile.valid ⟨true, [("other", DatabaseStatus.inited)]⟩)
        "other" :=
  (C10_single_entry_updates_frame
      (StatusFile.valid ⟨true, [("other", DatabaseStatus.inited)]⟩)
      "db1" DatabaseStatus.created "other" true).2.1 (by decide)

end InitDatabase
